import Mathlib

/-!
Verification of the MCP client connection manager
(`src/nerve/tools/mcp/client.py`) against its specification.

The embedding is shallow: the Python `Client` class becomes a Lean
structure (`ClientState`) with explicit state passing; external
collaborators (the protocol session, the transport stream factories, the
ambient process environment) are oracles supplied as arguments; process
termination (`exit(n)`) and raised exceptions become constructors of an
`Outcome` type; the side-effecting calls a method makes (stream
acquisition, session initialization, list-tools and call-tool requests,
error logging) are recorded in an explicit effect trace.
-/

/-- An opaque tool descriptor as advertised by the remote server
(`mcp.Tool`): a name plus a schema, both opaque here. -/
structure Tool where
  name : String
  inputSchema : String
deriving DecidableEq, Repr

/-- One content element of a tool-call response
(`mcp.types.TextContent | ImageContent | EmbeddedResource`).  The
`other` constructor stands for any element that matches none of the
three `isinstance` checks in `call_tool` (client.py lines 146-156). -/
inductive ContentElem where
  | text (text : String)
  | image (mimeType : String) (data : String)
  | embeddedResource (resource : String)
  | other (raw : String)
deriving DecidableEq, Repr

/-- The raw protocol response of `session.call_tool`: an error flag plus
an ordered sequence of content elements. -/
structure ToolCallResult where
  isError : Bool
  content : List ContentElem
deriving DecidableEq, Repr

/-- Normalized values returned by `call_tool`.  Python returns plain
strings, dicts and lists (`t.Any`); we embed them as a small JSON-like
type: `str` for a text string, `obj` for a dict with ordered fields,
`arr` for a list. -/
inductive JValue where
  | str (s : String)
  | obj (fields : List (String × JValue))
  | arr (elems : List JValue)

/-- Exceptions the client raises (Python `raise Exception(...)`).  The
invocation error keeps the raw response, embedding
`Exception(str(ret))` at client.py line 142. -/
inductive Err where
  | failedToConnect
  | invocation (raw : ToolCallResult)
  | embeddedResourceNotSupported

/-- Result of running one client operation: a normal return, a raised
exception propagated to the caller, or process termination with an exit
code (`exit(n)`). -/
inductive Outcome (α : Type) where
  | ok (a : α)
  | err (e : Err)
  | fatal (code : Nat)

/-- The dict built for an image element (client.py lines 149-154):
`{"type": "image_url", "image_url": {"url": f"data:{mimeType};base64,{data}"}}`. -/
def imageValue (mimeType data : String) : JValue :=
  .obj [("type", .str "image_url"),
        ("image_url", .obj [("url", .str ("data:" ++ mimeType ++ ";base64," ++ data))])]

/-- The normalization loop of `call_tool` (client.py lines 144-156):
`responses` is the accumulator list; a text element appends its string,
an image element appends `imageValue`, an embedded resource raises, and
any other element falls through the `if/elif` chain untouched. -/
def normalizeLoop (responses : List JValue) : List ContentElem → Except Err (List JValue)
  | [] => .ok responses
  | (.text s) :: rest => normalizeLoop (responses ++ [.str s]) rest
  | (.image m d) :: rest => normalizeLoop (responses ++ [imageValue m d]) rest
  | (.embeddedResource _) :: _ => .error .embeddedResourceNotSupported
  | (.other _) :: rest => normalizeLoop responses rest

/-- The response handling of `call_tool` after the request returns
(client.py lines 141-160): raise on `isError` carrying the raw result,
otherwise normalize the content and unwrap a single-element list
(`responses[0] if len(responses) == 1 else responses`). -/
def normalizeResult (ret : ToolCallResult) : Except Err JValue :=
  if ret.isError then .error (.invocation ret)
  else
    match normalizeLoop [] ret.content with
    | .error e => .error e
    | .ok [r] => .ok r
    | .ok rs => .ok (.arr rs)

/-- The server configuration (`Configuration.MCPServer` from
`nerve.models`, as the spec's §3 ServerConfig describes it: the model
class itself lives outside `src/`).  `env` is an ordered mapping of
variable name to value; a blank value is the empty string.  `url` is
optional; its presence/contents drive transport selection. -/
structure MCPServer where
  command : String
  args : List String
  env : List (String × String)
  url : Option String
  headers : List (String × String)
  timeout : Nat
  sse_read_timeout : Nat
  session_timeout : Nat
deriving DecidableEq, Repr

/-- The parameters handed to the stdio (subprocess) transport
(`StdioServerParameters(command=.., args=.., env=..)`, client.py
line 32). -/
structure StdioServerParameters where
  command : String
  args : List String
  env : List (String × String)
deriving DecidableEq, Repr

/-- The client's mutable state: the stored (possibly mutated) server
config, the subprocess transport parameters, the session and stream
pair (opaque, present or absent), and the tool cache `_tools`. -/
structure ClientState where
  name : String
  server : MCPServer
  server_params : StdioServerParameters
  session : Option Unit
  streams : Option Unit
  tools_cache : List Tool
deriving DecidableEq, Repr

/-- Python truthiness of the optional `url` field: `if self.server.url:`
is false both for `None` and for the empty string. -/
def urlTruthy : Option String → Bool
  | none => false
  | some s => !(s == "")

/-- The value an env entry holds after the resolution step of
`__init__` (client.py lines 19-24): a blank configured value is
replaced by `os.getenv(key)` only when that ambient value is truthy
(present and non-blank); otherwise the entry keeps its configured
value. -/
def resolvedVal (ambient : String → Option String) (k v : String) : String :=
  if v = "" then
    match ambient k with
    | some w => if w = "" then v else w
    | none => v
  else v

/-- The env-resolution loop of `__init__` (client.py lines 19-28): each
entry in order is resolved; if the entry is still blank after
resolution the constructor logs and calls `exit(1)`, embedded as
`none`. -/
def resolveEnv (ambient : String → Option String) :
    List (String × String) → Option (List (String × String))
  | [] => some []
  | (k, v) :: rest =>
    let v' := resolvedVal ambient k v
    if v' = "" then none
    else
      match resolveEnv ambient rest with
      | some rest' => some ((k, v') :: rest')
      | none => none

/-- `Client.__init__` (client.py lines 18-35): resolve the env mapping in
place (mutating the caller's config object — the returned state's
`server` field is that same mutated object), build the stdio transport
parameters from the resolved config, start with no session, no streams
and an empty tool cache.  `none` is the fatal `exit(1)` on an
unresolved blank variable; no transport is touched here. -/
def clientInit (name : String) (server : MCPServer)
    (ambient : String → Option String) : Option ClientState :=
  match resolveEnv ambient server.env with
  | none => none
  | some env' =>
    let server' := { server with env := env' }
    some { name := name
           server := server'
           server_params :=
             { command := server'.command, args := server'.args, env := server'.env }
           session := none
           streams := none
           tools_cache := [] }

/-- The observable side effects of the client's operations, in order:
transport stream acquisition (SSE or stdio), session creation, the
`initialize()` handshake, the timeout error log, a `list_tools`
request, a `call_tool` request. -/
inductive Effect where
  | openSSEStream
  | openStdioStream
  | createSession
  | initializeSession
  | logTimeoutError
  | listToolsRequest
  | callToolRequest (name : String)
deriving DecidableEq, Repr

/-- The oracle standing for the external collaborators: whether stream
acquisition succeeds, whether `initialize()` exceeds `session_timeout`,
the `list_tools` response and the `call_tool` response. -/
structure Oracle where
  stream_ok : Bool
  init_times_out : Bool
  list_tools_response : List Tool
  call_tool_resp : ToolCallResult

/-- The body of `tools()` below its session guard (client.py lines
120-129): return the cache if non-empty, else issue one `list_tools`
request and cache the full (single-page) response.  `connect()` reaches
this code through its `self.tools()` call at a point where the session
guard is known to be passed. -/
def toolsConnected (c : ClientState) (o : Oracle) :
    ClientState × List Tool × List Effect :=
  if c.tools_cache ≠ [] then (c, c.tools_cache, [])
  else ({ c with tools_cache := o.list_tools_response },
        o.list_tools_response, [.listToolsRequest])

/-- `connect()` (client.py lines 76-112): no-op when a session exists;
otherwise pick the transport from the truthiness of `url`, acquire the
stream pair (failure is the generators' `exit(0)`), create the session,
run `initialize()` under `asyncio.wait_for(_, session_timeout)` —
timeout logs and `exit(1)` — then populate the tool cache via
`self.tools()`. -/
def connect (c : ClientState) (o : Oracle) : Outcome ClientState × List Effect :=
  if c.session.isSome then (.ok c, [])
  else
    let openEff := if urlTruthy c.server.url then Effect.openSSEStream
                   else Effect.openStdioStream
    if !o.stream_ok then (.fatal 0, [openEff])
    else
      let c1 := { c with streams := some (), session := some () }
      if o.init_times_out then
        (.fatal 1, [openEff, .createSession, .initializeSession, .logTimeoutError])
      else
        let (c2, _, effs) := toolsConnected c1 o
        (.ok c2, [openEff, .createSession, .initializeSession] ++ effs)

/-- `tools()` (client.py lines 114-129): connect first when no session
exists, raising "failed to connect to MCP server" if that leaves no
session; then the cached-or-fetch body. -/
def tools (c : ClientState) (o : Oracle) :
    Outcome (ClientState × List Tool) × List Effect :=
  if c.session.isNone then
    match connect c o with
    | (.ok c', effs) =>
      if c'.session.isNone then (.err .failedToConnect, effs)
      else
        let (c2, ts, effs2) := toolsConnected c' o
        (.ok (c2, ts), effs ++ effs2)
    | (.fatal n, effs) => (.fatal n, effs)
    | (.err e, effs) => (.err e, effs)
  else
    let (c2, ts, effs2) := toolsConnected c o
    (.ok (c2, ts), effs2)

/-- `call_tool(name, **kwargs)` (client.py lines 131-160): connect first
when no session exists, raising "failed to connect" if that leaves no
session; issue the call-tool request; then handle the response with
`normalizeResult`. -/
def call_tool (c : ClientState) (o : Oracle) (toolName : String) :
    Outcome (ClientState × JValue) × List Effect :=
  if c.session.isNone then
    match connect c o with
    | (.ok c', effs) =>
      if c'.session.isNone then (.err .failedToConnect, effs)
      else
        match normalizeResult o.call_tool_resp with
        | .error e => (.err e, effs ++ [.callToolRequest toolName])
        | .ok v => (.ok (c', v), effs ++ [.callToolRequest toolName])
    | (.fatal n, effs) => (.fatal n, effs)
    | (.err e, effs) => (.err e, effs)
  else
    match normalizeResult o.call_tool_resp with
    | .error e => (.err e, [.callToolRequest toolName])
    | .ok v => (.ok (c, v), [.callToolRequest toolName])

/-- Whether a content element is one of the two kinds the spec's
normalization table maps to a value (text or image). -/
def isTextOrImage : ContentElem → Bool
  | .text _ => true
  | .image _ _ => true
  | _ => false

/-- Whether a content element is an embedded resource. -/
def isEmbedded : ContentElem → Bool
  | .embeddedResource _ => true
  | _ => false

/-- Whether a content element matches one of the three `isinstance`
checks of the normalization loop (text, image or embedded resource). -/
def isRecognized (e : ContentElem) : Bool :=
  isTextOrImage e || isEmbedded e

/-- Spec-side per-element mapping, following the spec's words: "text
element → the text string; image element → a structured value
{type: \x7bimage_url\x7d...}" — a text element to its text string, an
image element with mime type M and payload D to
`{type: "image_url", image_url: {url: "data:M;base64,D"}}`.  The
remaining kinds are outside the spec's table; the value given to them
here is arbitrary and unused under the claims' premises. -/
def specNormElem : ContentElem → JValue
  | .text s => .str s
  | .image m d =>
      .obj [("type", .str "image_url"),
            ("image_url", .obj [("url", .str ("data:" ++ m ++ ";base64," ++ d))])]
  | .embeddedResource _ => .arr []
  | .other _ => .arr []

/-- Spec-side arity collapse, following the spec's words: "if exactly
one normalized element resulted, return that element directly
(unwrapped); otherwise return the full ordered list (including the
empty list if there was no content)". -/
def specUnwrap : List JValue → JValue
  | [v] => v
  | vs => .arr vs

theorem normalizeLoop_map (l : List ContentElem) :
    ∀ acc : List JValue, (∀ e ∈ l, isTextOrImage e = true) →
      normalizeLoop acc l = .ok (acc ++ l.map specNormElem) := by
  induction l with
  | nil => intro acc _; simp [normalizeLoop]
  | cons e rest ih =>
    intro acc h
    have he : isTextOrImage e = true := h e (by simp)
    have hrest : ∀ e ∈ rest, isTextOrImage e = true := by
      intro x hx; exact h x (by simp [hx])
    cases e with
    | text s =>
      simp only [normalizeLoop, ih (acc ++ [JValue.str s]) hrest]
      simp [specNormElem]
    | image m d =>
      simp only [normalizeLoop, ih (acc ++ [imageValue m d]) hrest]
      simp [specNormElem, imageValue]
    | embeddedResource r => simp [isTextOrImage] at he
    | other r => simp [isTextOrImage] at he

theorem normalizeLoop_embedded (l : List ContentElem) :
    ∀ acc : List JValue, (∃ e ∈ l, isEmbedded e = true) →
      normalizeLoop acc l = .error .embeddedResourceNotSupported := by
  induction l with
  | nil => intro acc h; simp at h
  | cons e rest ih =>
    intro acc h
    rcases h with ⟨x, hx, hemb⟩
    rcases List.mem_cons.mp hx with hhead | htail
    · subst hhead
      cases x with
      | text s => simp [isEmbedded] at hemb
      | image m d => simp [isEmbedded] at hemb
      | embeddedResource r => simp [normalizeLoop]
      | other r => simp [isEmbedded] at hemb
    · cases e with
      | text s => exact ih (acc ++ [.str s]) ⟨x, htail, hemb⟩
      | image m d => exact ih (acc ++ [imageValue m d]) ⟨x, htail, hemb⟩
      | embeddedResource r => simp [normalizeLoop]
      | other r => exact ih acc ⟨x, htail, hemb⟩

theorem normalizeLoop_filter (l : List ContentElem) :
    ∀ acc : List JValue,
      normalizeLoop acc l = normalizeLoop acc (l.filter isRecognized) := by
  induction l with
  | nil => intro acc; rfl
  | cons e rest ih =>
    intro acc
    cases e with
    | text s => simp [normalizeLoop, List.filter, isRecognized, isTextOrImage, isEmbedded, ih]
    | image m d => simp [normalizeLoop, List.filter, isRecognized, isTextOrImage, isEmbedded, ih]
    | embeddedResource r =>
      simp [normalizeLoop, List.filter, isRecognized, isTextOrImage, isEmbedded]
    | other r => simp [normalizeLoop, List.filter, isRecognized, isTextOrImage, isEmbedded, ih]

/-- A sample stdio-configured server used by concrete witnesses. -/
def sampleServer : MCPServer :=
  { command := "srv", args := [], env := [], url := none, headers := [],
    timeout := 5, sse_read_timeout := 5, session_timeout := 5 }

/-- A sample already-connected client state (session and streams held,
tool cache empty). -/
def connectedClient : ClientState :=
  { name := "s", server := sampleServer,
    server_params := { command := "srv", args := [], env := [] },
    session := some (), streams := some (), tools_cache := [] }

/-- An oracle whose call-tool request returns the given response. -/
def oracleWith (ret : ToolCallResult) : Oracle :=
  { stream_ok := true, init_times_out := false,
    list_tools_response := [], call_tool_resp := ret }

/-- Claim C1: for every call_tool response whose error flag is unset and
whose content elements are text or image elements, `call_tool` maps each
element as the spec states (text to its string, image to the
`image_url` data-URI object) and applies the single-element unwrap:
exactly one normalized element is returned directly, otherwise the full
ordered list (the empty list included) is returned. -/
theorem call_tool_normalizes_text_and_image
    (c : ClientState) (o : Oracle) (n : String)
    (hs : c.session = some ()) (he : o.call_tool_resp.isError = false)
    (hc : ∀ e ∈ o.call_tool_resp.content, isTextOrImage e = true) :
    call_tool c o n =
      (.ok (c, specUnwrap (o.call_tool_resp.content.map specNormElem)),
       [.callToolRequest n]) := by
  have hloop := normalizeLoop_map o.call_tool_resp.content [] hc
  simp only [List.nil_append] at hloop
  have hn : normalizeResult o.call_tool_resp =
      .ok (specUnwrap (o.call_tool_resp.content.map specNormElem)) := by
    unfold normalizeResult
    simp only [he, Bool.false_eq_true, if_false, hloop]
    cases o.call_tool_resp.content.map specNormElem with
    | nil => rfl
    | cons v vs =>
      cases vs with
      | nil => rfl
      | cons w ws => rfl
  simp [call_tool, hs, hn]

/-- Witness for C1: a single text element `"hello"` comes back as the
unwrapped string `"hello"`. -/
theorem call_tool_normalizes_text_and_image_witness :
    (∀ e ∈ (ToolCallResult.mk false [.text "hello"]).content, isTextOrImage e = true) ∧
    call_tool connectedClient (oracleWith ⟨false, [.text "hello"]⟩) "t" =
      (.ok (connectedClient, .str "hello"), [.callToolRequest "t"]) :=
  ⟨by decide,
   call_tool_normalizes_text_and_image connectedClient
     (oracleWith ⟨false, [.text "hello"]⟩) "t" rfl rfl (by decide)⟩

/-- Claim C2: for every connected client, a call_tool response with the
error flag set makes `call_tool` fail with an invocation error carrying
the raw response, whatever the content sequence holds. -/
theorem call_tool_error_flag_invocation
    (c : ClientState) (o : Oracle) (n : String)
    (hs : c.session = some ()) (he : o.call_tool_resp.isError = true) :
    call_tool c o n =
      (.err (.invocation o.call_tool_resp), [.callToolRequest n]) := by
  simp [call_tool, hs, normalizeResult, he]

/-- Witness for C2: an `isError` response with non-empty content fails
with the invocation error carrying that very response. -/
theorem call_tool_error_flag_invocation_witness :
    (oracleWith ⟨true, [.text "x"]⟩).call_tool_resp.isError = true ∧
    call_tool connectedClient (oracleWith ⟨true, [.text "x"]⟩) "t" =
      (.err (.invocation ⟨true, [.text "x"]⟩), [.callToolRequest "t"]) :=
  ⟨rfl,
   call_tool_error_flag_invocation connectedClient
     (oracleWith ⟨true, [.text "x"]⟩) "t" rfl rfl⟩

/-- Claim C3: a call_tool response (error flag unset) whose content holds
an embedded-resource element anywhere makes `call_tool` fail with the
"not supported" error; no partial normalized value is returned. -/
theorem call_tool_embedded_resource_fails
    (c : ClientState) (o : Oracle) (n : String)
    (hs : c.session = some ()) (he : o.call_tool_resp.isError = false)
    (hemb : ∃ e ∈ o.call_tool_resp.content, isEmbedded e = true) :
    call_tool c o n =
      (.err .embeddedResourceNotSupported, [.callToolRequest n]) := by
  have hloop := normalizeLoop_embedded o.call_tool_resp.content [] hemb
  simp [call_tool, hs, normalizeResult, he, hloop]

/-- Witness for C3: a text element followed by an embedded resource
yields the hard "not supported" failure, not a partial list. -/
theorem call_tool_embedded_resource_fails_witness :
    (∃ e ∈ (ToolCallResult.mk false [.text "a", .embeddedResource "r"]).content,
        isEmbedded e = true) ∧
    call_tool connectedClient (oracleWith ⟨false, [.text "a", .embeddedResource "r"]⟩) "t" =
      (.err .embeddedResourceNotSupported, [.callToolRequest "t"]) :=
  ⟨by decide,
   call_tool_embedded_resource_fails connectedClient
     (oracleWith ⟨false, [.text "a", .embeddedResource "r"]⟩) "t" rfl rfl (by decide)⟩

/-- Claim C9: content elements that are neither text, image nor embedded
resource are silently skipped: `call_tool` on a response (error flag
unset) equals `call_tool` on the same response with only the recognized
elements kept, so unrecognized elements neither appear in the output
nor raise, and the arity unwrap counts recognized elements only. -/
theorem call_tool_skips_unrecognized
    (c : ClientState) (o : Oracle) (n : String)
    (hs : c.session = some ()) (he : o.call_tool_resp.isError = false) :
    call_tool c o n =
      call_tool c
        { o with call_tool_resp :=
            { isError := o.call_tool_resp.isError,
              content := o.call_tool_resp.content.filter isRecognized } } n := by
  have hloop := normalizeLoop_filter o.call_tool_resp.content []
  simp [call_tool, hs, normalizeResult, he, hloop]

/-- Witness for C9: an unrecognized element before a text element is
dropped, leaving the same result as the response without it. -/
theorem call_tool_skips_unrecognized_witness :
    (oracleWith ⟨false, [.other "x", .text "a"]⟩).call_tool_resp.isError = false ∧
    call_tool connectedClient (oracleWith ⟨false, [.other "x", .text "a"]⟩) "t" =
      call_tool connectedClient (oracleWith ⟨false, [.text "a"]⟩) "t" :=
  ⟨rfl,
   call_tool_skips_unrecognized connectedClient
     (oracleWith ⟨false, [.other "x", .text "a"]⟩) "t" rfl rfl⟩

theorem resolveEnv_none_of_absent (ambient : String → Option String) (k : String) :
    ∀ l : List (String × String), (k, "") ∈ l → ambient k = none →
      resolveEnv ambient l = none := by
  intro l
  induction l with
  | nil => intro h _; simp at h
  | cons p rest ih =>
    intro hmem hamb
    obtain ⟨k', v'⟩ := p
    rcases List.mem_cons.mp hmem with hh | ht
    · injection hh with h1 h2
      subst h1; subst h2
      simp [resolveEnv, resolvedVal, hamb]
    · by_cases hv : resolvedVal ambient k' v' = ""
      · simp [resolveEnv, hv]
      · simp [resolveEnv, hv, ih ht hamb]

theorem resolveEnv_some_of_resolvable (ambient : String → Option String) :
    ∀ l : List (String × String),
      (∀ k v, (k, v) ∈ l → v = "" → ∃ w, ambient k = some w ∧ w ≠ "") →
      resolveEnv ambient l =
        some (l.map fun p => (p.1, resolvedVal ambient p.1 p.2)) := by
  intro l
  induction l with
  | nil => intro _; rfl
  | cons p rest ih =>
    intro h
    obtain ⟨k, v⟩ := p
    have hrest : ∀ k' v', (k', v') ∈ rest → v' = "" → ∃ w, ambient k' = some w ∧ w ≠ "" := by
      intro k' v' hm hv
      exact h k' v' (List.mem_cons_of_mem _ hm) hv
    have hv' : resolvedVal ambient k v ≠ "" := by
      by_cases hv : v = ""
      · obtain ⟨w, hw, hwne⟩ := h k v (List.mem_cons_self _ _) hv
        subst hv
        simp [resolvedVal, hw, hwne]
      · simp [resolvedVal, hv]
    simp [resolveEnv, hv', ih hrest]

theorem resolveEnv_some_eq_map (ambient : String → Option String) :
    ∀ l l' : List (String × String), resolveEnv ambient l = some l' →
      l' = l.map fun p => (p.1, resolvedVal ambient p.1 p.2) := by
  intro l
  induction l with
  | nil => intro l' h; simp [resolveEnv] at h; subst h; rfl
  | cons p rest ih =>
    intro l' h
    obtain ⟨k, v⟩ := p
    by_cases hv : resolvedVal ambient k v = ""
    · simp [resolveEnv, hv] at h
    · cases hr : resolveEnv ambient rest with
      | none => simp [resolveEnv, hv, hr] at h
      | some rest' =>
        simp [resolveEnv, hv, hr] at h
        subst h
        simp [ih rest' hr]

theorem resolveEnv_values_nonblank (ambient : String → Option String) :
    ∀ l l' : List (String × String), resolveEnv ambient l = some l' →
      ∀ k v, (k, v) ∈ l' → v ≠ "" := by
  intro l
  induction l with
  | nil =>
    intro l' h k v hm
    simp [resolveEnv] at h
    subst h
    simp at hm
  | cons p rest ih =>
    intro l' h k v hm
    obtain ⟨k0, v0⟩ := p
    by_cases hv : resolvedVal ambient k0 v0 = ""
    · simp [resolveEnv, hv] at h
    · cases hr : resolveEnv ambient rest with
      | none => simp [resolveEnv, hv, hr] at h
      | some rest' =>
        simp [resolveEnv, hv, hr] at h
        subst h
        rcases List.mem_cons.mp hm with hh | ht
        · injection hh with h1 h2
          rw [h2]
          exact hv
        · exact ih rest' hr k v ht

/-- A server config with one blank env entry, used by the construction
claims. -/
def blankEnvServer : MCPServer :=
  { command := "c", args := [], env := [("KEY", "")], url := none, headers := [],
    timeout := 0, sse_read_timeout := 0, session_timeout := 0 }

/-- An ambient environment in which `KEY` is present but set to the
empty string. -/
def ambientPresentBlank : String → Option String :=
  fun k => if k = "KEY" then some "" else none

/-- An ambient environment in which `KEY` is present with the non-blank
value `"xyz"`. -/
def ambientPresentVal : String → Option String :=
  fun k => if k = "KEY" then some "xyz" else none

/-- Counterexample to C4 as stated: the env variable `KEY` is blank in
the config and *present* in the ambient environment (with the empty
string as its value), yet construction fails fatally — `os.getenv`
returning a blank string is treated like an absent variable by the
truthiness test at client.py line 22, so the claim's "present implies
success" branch is false. -/
theorem clientInit_present_blank_counterexample :
    ambientPresentBlank "KEY" = some "" ∧
    clientInit "s" blankEnvServer ambientPresentBlank = none := by
  constructor
  · rfl
  · decide

/-- Claim C4 (amended): for a configuration with a blank env entry, if
the variable is absent from the ambient environment construction fails
fatally before any transport is touched (`clientInit` performs no
effect and yields no state); and when every blank entry resolves to a
*non-blank* ambient value, construction succeeds and the resolved
values are the ones stored in the `StdioServerParameters` handed to the
subprocess transport. -/
theorem clientInit_env_resolution (name : String) (server : MCPServer)
    (ambient : String → Option String) (k : String)
    (hk : (k, "") ∈ server.env) :
    (ambient k = none → clientInit name server ambient = none) ∧
    ((∀ k' v', (k', v') ∈ server.env → v' = "" → ∃ w, ambient k' = some w ∧ w ≠ "") →
      ∃ st, clientInit name server ambient = some st ∧
        st.server_params =
          { command := server.command, args := server.args,
            env := server.env.map fun p => (p.1, resolvedVal ambient p.1 p.2) }) := by
  constructor
  · intro hamb
    simp [clientInit, resolveEnv_none_of_absent ambient k server.env hk hamb]
  · intro hres
    have h2 := resolveEnv_some_of_resolvable ambient server.env hres
    refine ⟨⟨name,
             { server with
               env := server.env.map (fun p => (p.1, resolvedVal ambient p.1 p.2)) },
             ⟨server.command, server.args,
              server.env.map (fun p => (p.1, resolvedVal ambient p.1 p.2))⟩,
             none, none, []⟩, ?_, rfl⟩
    simp [clientInit, h2]

/-- Witness for C4 (amended), at the concrete config `blankEnvServer`
and the ambient environment holding `KEY = "xyz"`: construction
succeeds and the transport parameters carry the resolved entry. -/
theorem clientInit_env_resolution_witness :
    ("KEY", "") ∈ blankEnvServer.env ∧
    ((ambientPresentVal "KEY" = none →
        clientInit "s" blankEnvServer ambientPresentVal = none) ∧
     ((∀ k' v', (k', v') ∈ blankEnvServer.env → v' = "" →
          ∃ w, ambientPresentVal k' = some w ∧ w ≠ "") →
       ∃ st, clientInit "s" blankEnvServer ambientPresentVal = some st ∧
         st.server_params =
           { command := blankEnvServer.command, args := blankEnvServer.args,
             env := blankEnvServer.env.map
               fun p => (p.1, resolvedVal ambientPresentVal p.1 p.2) })) :=
  ⟨by decide,
   clientInit_env_resolution "s" blankEnvServer ambientPresentVal "KEY" (by decide)⟩

/-- Claim C10: on successful construction the caller-supplied config
object (aliased as the stored `server` field, mutated in place by the
Python loop) holds the resolved env mapping — every blank entry whose
variable has a non-blank ambient value is overwritten with that value,
no blank placeholder survives — while every other configuration field
is unchanged. -/
theorem clientInit_writes_back_resolved_env (name : String) (server : MCPServer)
    (ambient : String → Option String) (st : ClientState)
    (h : clientInit name server ambient = some st) :
    st.server = { server with
      env := server.env.map fun p => (p.1, resolvedVal ambient p.1 p.2) } ∧
    (∀ k w, (k, "") ∈ server.env → ambient k = some w → w ≠ "" →
      (k, w) ∈ st.server.env) ∧
    (∀ k v, (k, v) ∈ st.server.env → v ≠ "") := by
  cases hr : resolveEnv ambient server.env with
  | none => simp [clientInit, hr] at h
  | some env' =>
    simp [clientInit, hr] at h
    have hmap := resolveEnv_some_eq_map ambient server.env env' hr
    have henv : st.server.env = env' := by rw [← h]
    have hserver : st.server = { server with
        env := server.env.map fun p => (p.1, resolvedVal ambient p.1 p.2) } := by
      rw [← h]
      simp [hmap]
    refine ⟨hserver, ?_, ?_⟩
    · intro k w hk hamb hw
      have hval : resolvedVal ambient k "" = w := by
        simp [resolvedVal, hamb, hw]
      have hmem := List.mem_map_of_mem
        (fun p : String × String => (p.1, resolvedVal ambient p.1 p.2)) hk
      rw [henv, hmap]
      simpa [hval] using hmem
    · intro k v hm
      rw [henv] at hm
      exact resolveEnv_values_nonblank ambient server.env env' hr k v hm

/-- The client state produced by constructing against `blankEnvServer`
with `KEY = "xyz"` in the ambient environment. -/
def resolvedClient : ClientState :=
  { name := "s",
    server := { blankEnvServer with env := [("KEY", "xyz")] },
    server_params := { command := "c", args := [], env := [("KEY", "xyz")] },
    session := none, streams := none, tools_cache := [] }

/-- Witness for C10: constructing against the concrete config writes the
resolved value back into the stored config's env mapping and leaves the
other fields alone. -/
theorem clientInit_writes_back_resolved_env_witness :
    clientInit "s" blankEnvServer ambientPresentVal = some resolvedClient ∧
    (resolvedClient.server = { blankEnvServer with
        env := blankEnvServer.env.map
          fun p => (p.1, resolvedVal ambientPresentVal p.1 p.2) } ∧
     (∀ k w, (k, "") ∈ blankEnvServer.env → ambientPresentVal k = some w → w ≠ "" →
        (k, w) ∈ resolvedClient.server.env) ∧
     (∀ k v, (k, v) ∈ resolvedClient.server.env → v ≠ "")) :=
  ⟨by decide,
   clientInit_writes_back_resolved_env "s" blankEnvServer ambientPresentVal
     resolvedClient (by decide)⟩

/-- A sample not-yet-connected client (no session, no streams, empty
cache, stdio config). -/
def freshClient : ClientState :=
  { name := "s", server := sampleServer,
    server_params := { command := "srv", args := [], env := [] },
    session := none, streams := none, tools_cache := [] }

/-- An oracle whose `initialize()` exceeds the session timeout. -/
def timeoutOracle : Oracle :=
  { stream_ok := true, init_times_out := true,
    list_tools_response := [], call_tool_resp := ⟨false, []⟩ }

/-- Claim C6: connect on an already-connected instance (a session
exists) is a no-op — the returned state is the very same state (same
session, streams and tool cache) and no effect is performed: no stream
re-acquisition, no handshake. -/
theorem connect_idempotent_on_connected (c : ClientState) (o : Oracle)
    (hs : c.session = some ()) :
    connect c o = (.ok c, []) := by
  simp [connect, hs]

/-- Witness for C6: connect on the sample connected client returns it
unchanged with an empty effect trace. -/
theorem connect_idempotent_on_connected_witness :
    connectedClient.session = some () ∧
    connect connectedClient (oracleWith ⟨false, []⟩) = (.ok connectedClient, []) :=
  ⟨rfl, connect_idempotent_on_connected connectedClient (oracleWith ⟨false, []⟩) rfl⟩

/-- Claim C7: when stream acquisition succeeds but session
initialization exceeds `session_timeout`, connect logs the timeout and
terminates the process with exit code 1 (non-zero): the handshake is
attempted exactly once (never retried) and the outcome is process
termination, not an error surfaced to the caller. -/
theorem connect_timeout_fatal_exit (c : ClientState) (o : Oracle)
    (hs : c.session = none) (hstream : o.stream_ok = true)
    (hto : o.init_times_out = true) :
    ∃ eff1, connect c o =
      (.fatal 1, [eff1, .createSession, .initializeSession, .logTimeoutError]) ∧
      (eff1 = Effect.openSSEStream ∨ eff1 = Effect.openStdioStream) := by
  refine ⟨if urlTruthy c.server.url then .openSSEStream else .openStdioStream, ?_, ?_⟩
  · simp [connect, hs, hstream, hto]
  · by_cases h : urlTruthy c.server.url <;> simp [h]

/-- Witness for C7: the fresh stdio client with a timing-out handshake
dies with exit code 1 after logging, having tried exactly once. -/
theorem connect_timeout_fatal_exit_witness :
    freshClient.session = none ∧ timeoutOracle.init_times_out = true ∧
    ∃ eff1, connect freshClient timeoutOracle =
      (.fatal 1, [eff1, .createSession, .initializeSession, .logTimeoutError]) ∧
      (eff1 = Effect.openSSEStream ∨ eff1 = Effect.openStdioStream) :=
  ⟨rfl, rfl, connect_timeout_fatal_exit freshClient timeoutOracle rfl rfl rfl⟩

/-- A server config whose `url` field is present but blank. -/
def emptyUrlServer : MCPServer :=
  { command := "c", args := [], env := [], url := some "", headers := [],
    timeout := 0, sse_read_timeout := 0, session_timeout := 0 }

/-- A not-yet-connected client configured with the blank url. -/
def emptyUrlClient : ClientState :=
  { name := "s", server := emptyUrlServer,
    server_params := { command := "c", args := [], env := [] },
    session := none, streams := none, tools_cache := [] }

/-- Counterexample to C8 as stated: the `url` field is present (it holds
the empty string), yet connect acquires the subprocess (stdio)
transport — `if self.server.url:` at client.py line 80 tests Python
truthiness, not presence, so a present-but-blank url selects stdio. -/
theorem connect_url_presence_counterexample :
    emptyUrlClient.server.url.isSome = true ∧
    (connect emptyUrlClient (oracleWith ⟨false, []⟩)).2.head? =
      some Effect.openStdioStream := by
  decide

/-- Claim C8 (amended): connect selects the transport solely from the
`url` field, by truthiness: the SSE transport is acquired first exactly
when the url is present and non-blank, and the stdio transport
otherwise (url absent or blank). -/
theorem connect_transport_selection (c : ClientState) (o : Oracle)
    (hs : c.session = none) :
    (connect c o).2.head? =
      some (if urlTruthy c.server.url then Effect.openSSEStream
            else Effect.openStdioStream) := by
  by_cases hst : o.stream_ok
  · by_cases hin : o.init_times_out
    · simp [connect, hs, hst, hin]
    · rcases htc : toolsConnected { c with streams := some (), session := some () } o
        with ⟨c2, ts, effs⟩
      simp [connect, hs, hst, hin, htc]
  · simp [connect, hs, hst]

/-- Witness for C8 (amended): the fresh client has no url, so the first
acquired transport is stdio. -/
theorem connect_transport_selection_witness :
    freshClient.session = none ∧
    (connect freshClient (oracleWith ⟨false, []⟩)).2.head? =
      some (if urlTruthy freshClient.server.url then Effect.openSSEStream
            else Effect.openStdioStream) :=
  ⟨rfl, connect_transport_selection freshClient (oracleWith ⟨false, []⟩) rfl⟩

/-- How many list-tools requests a trace holds. -/
def listRequestCount (effs : List Effect) : Nat :=
  effs.count Effect.listToolsRequest

/-- The client state a successful `tools` run leaves behind. -/
def stateAfterTools (r : Outcome (ClientState × List Tool) × List Effect)
    (dflt : ClientState) : ClientState :=
  match r.1 with
  | .ok (c, _) => c
  | _ => dflt

/-- Counterexample to C5 as stated: on a connected instance whose cache
is empty and whose server advertises *no* tools, each of two `tools()`
calls issues its own list request (the empty fetched list never marks
the cache as populated, `if self._tools:` being false), so two calls
issue two requests, not at most one. -/
theorem tools_twice_refetch_counterexample :
    connectedClient.session = some () ∧
    tools connectedClient (oracleWith ⟨false, []⟩) =
      (.ok (connectedClient, []), [.listToolsRequest]) ∧
    ¬ (listRequestCount (tools connectedClient (oracleWith ⟨false, []⟩)).2 +
       listRequestCount (tools (stateAfterTools
           (tools connectedClient (oracleWith ⟨false, []⟩)) connectedClient)
           (oracleWith ⟨false, []⟩)).2 ≤ 1) := by
  refine ⟨rfl, rfl, by decide⟩

/-- Claim C5 (amended): on a connected instance, provided the cache or
the advertised tool list is non-empty, two `tools()` calls issue at
most one list request in total: the first call returns a list and a
state on which the second call is a pure cache hit — same list, same
state, no request, no effect at all. -/
theorem tools_twice_single_request (c : ClientState) (o : Oracle)
    (hs : c.session = some ())
    (hne : c.tools_cache ≠ [] ∨ o.list_tools_response ≠ []) :
    ∃ c1 ts e1, tools c o = (.ok (c1, ts), e1) ∧
      tools c1 o = (.ok (c1, ts), []) ∧
      listRequestCount e1 ≤ 1 := by
  by_cases hc : c.tools_cache = []
  · have hr : o.list_tools_response ≠ [] := by
      rcases hne with h | h
      · exact absurd hc h
      · exact h
    refine ⟨{ c with tools_cache := o.list_tools_response }, o.list_tools_response,
            [.listToolsRequest], ?_, ?_, ?_⟩
    · simp [tools, hs, toolsConnected, hc]
    · simp [tools, hs, toolsConnected, hr]
    · decide
  · refine ⟨c, c.tools_cache, [], ?_, ?_, ?_⟩
    · simp [tools, hs, toolsConnected, hc]
    · simp [tools, hs, toolsConnected, hc]
    · decide

/-- A sample advertised tool. -/
def oneTool : Tool := { name := "t1", inputSchema := "s1" }

/-- Witness for C5 (amended): with one advertised tool, the first call
fetches once and the second is a no-effect cache hit. -/
theorem tools_twice_single_request_witness :
    connectedClient.session = some () ∧
    (connectedClient.tools_cache ≠ [] ∨
      (Oracle.mk true false [oneTool] ⟨false, []⟩).list_tools_response ≠ []) ∧
    ∃ c1 ts e1,
      tools connectedClient (Oracle.mk true false [oneTool] ⟨false, []⟩) =
        (.ok (c1, ts), e1) ∧
      tools c1 (Oracle.mk true false [oneTool] ⟨false, []⟩) = (.ok (c1, ts), []) ∧
      listRequestCount e1 ≤ 1 :=
  ⟨rfl, by decide,
   tools_twice_single_request connectedClient
     (Oracle.mk true false [oneTool] ⟨false, []⟩) rfl (by decide)⟩
